import Mathlib

/-!
Shallow embedding of `lib/charms/grafana_agent_k8s/v0/grafana_agent.py`
(grafana-agent-k8s-operator).

The module wires a promtail sidecar: a `LogProxyConsumer` that provisions the
promtail binary (download, SHA-256 check, unzip, upload), synthesizes and
mutates the promtail YAML config, tracks active grafana agents in stored
state, and reacts to relation lifecycle events; and a `LogProxyProvider`
that publishes its loki push API endpoint and the binary download URL into
relation data.

YAML / JSON documents are embedded as `YVal` trees; a top-level config
document is an association list of string keys to values, mirroring a Python
dict with insertion order. Fallible Python operations (KeyError on a dict
access, AttributeError on appending to a non-list, pulling a missing file)
are embedded as `Option` / error results. The SHA-256 digest of downloaded
bytes is abstracted as the hex string the hash would produce; the code only
ever compares that string against a pinned constant.
-/

/-- Embedded YAML/JSON value, as promtail config documents use them. -/
inductive YVal where
  | str : String → YVal
  | num : Int → YVal
  | bool : Bool → YVal
  | list : List YVal → YVal
  | dict : List (String × YVal) → YVal

/-- A top-level config document: a Python dict in insertion order. -/
abbrev Config := List (String × YVal)

/-- Python dict lookup `cfg[k]` / `cfg.get(k)`: first matching key. -/
def ylookup : Config → String → Option YVal
  | [], _ => none
  | (k1, v) :: rest, k => if k1 = k then some v else ylookup rest k

/-- Python dict assignment `cfg[k] = v`: replace the value at an existing
key in place, otherwise append the new key at the end. -/
def setKey : Config → String → YVal → Config
  | [], k, v => [(k, v)]
  | (k1, w) :: rest, k, v =>
    if k1 = k then (k, v) :: rest else (k1, w) :: setKey rest k v

/-- Python truthiness of an embedded value (empty string, zero, False,
empty list and empty dict are falsy). -/
def yfalsy : YVal → Bool
  | YVal.str s => s = ""
  | YVal.num n => n = 0
  | YVal.bool b => !b
  | YVal.list l => l.isEmpty
  | YVal.dict d => d.isEmpty

/-- Python `len(v)`: defined for strings, lists and dicts, a TypeError
(`none`) otherwise. -/
def ylen : YVal → Option Nat
  | YVal.str s => some s.length
  | YVal.num _ => none
  | YVal.bool _ => none
  | YVal.list l => some l.length
  | YVal.dict d => some d.length

-- Constants from the module (`grafana_agent.py`, lines 102-116).

def PROMTAIL_BINARY_ZIP_URL : String :=
  "https://github.com/grafana/loki/releases/download/v2.4.1/promtail-linux-amd64.zip"

def BINARY_SHA25SUM : String :=
  "978391a174e71cfef444ab9dc012f95d5d7eae0d682eaf1da2ea18f793452031"

def SERVICE_NAME : String := "promtail"

def HTTP_LISTEN_PORT : Nat := 9080

def GRPC_LISTEN_PORT : Nat := 0

def POSITIONS_FILENAME : String := "/tmp/positions.yaml"

def CONFIG_PATH : String := "/tmp/promtail_config.yml"

def WORKLOAD_BINARY_PATH : String := "/tmp/promtail-linux-amd64"

/-- The dict literal appended or filtered by the client mutations:
a one-key dict mapping "url" to the agent URL. -/
def clientEntry (url : String) : YVal :=
  YVal.dict [("url", YVal.str url)]

/-- Python equality of a value against the one-key dict literal with key
"url" and string value `url`: true exactly for a dict holding that single
pair. Python dict equality compares key sets and values; against a one-key
dict with a string value this is the whole comparison. -/
def isClientEntry (c : YVal) (url : String) : Bool :=
  match c with
  | YVal.dict [(k, YVal.str s)] => k == "url" && s == url
  | _ => false

/-- `LogProxyConsumer._add_client`: if the document has a "clients" key,
append the client entry to its list (an AttributeError, `none`, if the
value is not a list); otherwise create the list with the single entry. -/
def addClient (cfg : Config) (url : String) : Option Config :=
  match ylookup cfg "clients" with
  | some (YVal.list l) => some (setKey cfg "clients" (YVal.list (l ++ [clientEntry url])))
  | some _ => none
  | none => some (setKey cfg "clients" (YVal.list [clientEntry url]))

/-- `LogProxyConsumer._remove_client`: `cfg.get("clients")`, and if that is
truthy, filter out every entry equal to the client entry and write the list
back; a missing or falsy "clients" value leaves the document unchanged.
Filtering a truthy non-list value is a TypeError (`none`). -/
def removeClient (cfg : Config) (url : String) : Option Config :=
  match ylookup cfg "clients" with
  | none => some cfg
  | some v =>
    if yfalsy v then some cfg
    else
      match v with
      | YVal.list l =>
          some (setKey cfg "clients" (YVal.list (l.filter (fun c => !isClientEntry c url))))
      | _ => none

/-- `LogProxyConsumer._server_config`. -/
def serverConfig : Config :=
  [("server", YVal.dict
      [("http_listen_port", YVal.num (Int.ofNat HTTP_LISTEN_PORT)),
       ("grpc_listen_port", YVal.num (Int.ofNat GRPC_LISTEN_PORT))])]

/-- `LogProxyConsumer._positions`. -/
def positionsConfig : Config :=
  [("positions", YVal.dict [("filename", YVal.str POSITIONS_FILENAME)])]

/-- `LogProxyConsumer._scrape_configs`: one static job labelled with the
juju topology (model name, model uuid, application name). -/
def scrapeConfigs (modelName modelUuid appName : String) : Config :=
  [("scrape_configs", YVal.list
      [YVal.dict
        [("job_name", YVal.str "system"),
         ("static_configs", YVal.list
            [YVal.dict
              [("targets", YVal.list [YVal.str "localhost"]),
               ("labels", YVal.dict
                  [("job", YVal.str
                      ("juju_" ++ modelName ++ "_" ++ modelUuid ++ "_" ++ appName)),
                   ("__path__", YVal.str "/var/log/dmesg")])]])]])]

/-- `LogProxyConsumer._initial_config`: merge of the three fixed sections. -/
def initialConfig (modelName modelUuid appName : String) : Config :=
  serverConfig ++ positionsConfig ++ scrapeConfigs modelName modelUuid appName

-- Binary provisioning (`_obtain_promtail` and helpers).

/-- Side effects `_obtain_promtail` may perform, in program order. -/
inductive Effect where
  | download
  | checksum
  | unzip
  | upload
deriving DecidableEq, Repr

/-- The error raised by `_obtain_promtail` on digest mismatch
(`PromtailDigestError`). -/
inductive PromtailError where
  | digestMismatch
deriving DecidableEq, Repr

/-- `LogProxyConsumer._check_sha256sum` with the default pinned digest:
compare the hex digest computed over the downloaded bytes against
`BINARY_SHA25SUM`. -/
def checkSha256sum (computed : String) : Bool :=
  decide (BINARY_SHA25SUM = computed)

/-- `LogProxyConsumer._obtain_promtail`: if the binary is already in the
workload container, return at once; otherwise download the archive, check
its SHA-256 digest, and only on a match unzip and upload the binary.
Returns the effects performed and the raised error, if any. -/
def obtainPromtail (binaryInWorkload : Bool) (downloadedSha : String) :
    List Effect × Option PromtailError :=
  if binaryInWorkload then ([], none)
  else if checkSha256sum downloadedSha then
    ([Effect.download, Effect.checksum, Effect.unzip, Effect.upload], none)
  else
    ([Effect.download, Effect.checksum], some PromtailError.digestMismatch)

-- Stored membership registry (`self._stored.grafana_agents`, a JSON dict
-- from unit name to agent URL).

/-- Lookup in the stored grafana agents dict. -/
def lookupAgent : List (String × String) → String → Option String
  | [], _ => none
  | (k, v) :: rest, u => if k = u then some v else lookupAgent rest u

/-- `grafana_agents[str(event.unit)] = agent_url`: overwrite or append. -/
def recordAgent : List (String × String) → String → String → List (String × String)
  | [], u, url => [(u, url)]
  | (k, v) :: rest, u, url =>
    if k = u then (u, url) :: rest else (k, v) :: recordAgent rest u url

/-- Removal of a key from the stored dict. -/
def eraseAgent (agents : List (String × String)) (u : String) : List (String × String) :=
  agents.filter (fun p => decide (p.1 ≠ u))

/-- Python `dict.pop(key)` with no default: `none` is the KeyError raised
when the key is absent, otherwise the value and the shrunken dict. -/
def popAgent (agents : List (String × String)) (u : String) :
    Option (String × List (String × String)) :=
  match lookupAgent agents u with
  | none => none
  | some v => some (v, eraseAgent agents u)

-- Consumer event handlers.

/-- Pebble service status of a named service. -/
inductive ServiceStatus where
  | stopped
  | running
deriving DecidableEq, Repr

/-- The state an event handler of `LogProxyConsumer` can observe and
mutate: the config file pushed into the sidecar container (absent before
relation-created), the stored agents dict, whether the promtail binary has
been uploaded, whether the pebble layer has been added, and the promtail
service plus workload container service status. -/
structure ConsumerState where
  config : Option Config
  agents : List (String × String)
  binaryInstalled : Bool
  layerDeclared : Bool
  service : ServiceStatus
  workloadService : ServiceStatus

/-- Errors a consumer event handler can raise. -/
inductive HandlerError where
  | digestMismatch
  | keyError
  | typeError
  | pullError
deriving DecidableEq, Repr

/-- The "data" payload a peer unit publishes, once parsed: the loki push
API URL and the binary download URL, together with the hex SHA-256 digest
of the bytes that downloading that URL yields (an environment input). -/
structure PeerData where
  lokiPushApi : String
  promtailBinaryZipUrl : String
  archiveSha : String
deriving DecidableEq, Repr

/-- `LogProxyConsumer._on_log_proxy_relation_created`: push the initial
config into the sidecar container. -/
def onLogProxyRelationCreated (s : ConsumerState)
    (modelName modelUuid appName : String) : ConsumerState :=
  { s with config := some (initialConfig modelName modelUuid appName) }

/-- `LogProxyConsumer._on_log_proxy_relation_changed`: if the peer has
published "data", provision the binary, mutate the config via add_client
on the pulled current config, record membership, add the pebble layer, and
restart the workload container service and the promtail service. A raised
error aborts the remaining steps, as an uncaught Python exception does. -/
def onLogProxyRelationChanged (s : ConsumerState) (unit : String)
    (pd : Option PeerData) : ConsumerState × Option HandlerError :=
  match pd with
  | none => (s, none)
  | some d =>
    match (obtainPromtail s.binaryInstalled d.archiveSha).2 with
    | some _ => (s, some HandlerError.digestMismatch)
    | none =>
      let s1 := { s with binaryInstalled := true }
      match s1.config with
      | none => (s1, some HandlerError.pullError)
      | some cfg =>
        match addClient cfg d.lokiPushApi with
        | none => (s1, some HandlerError.typeError)
        | some cfg1 =>
          let s2 := { s1 with config := some cfg1 }
          let s3 := { s2 with agents := recordAgent s2.agents unit d.lokiPushApi }
          let s4 := { s3 with layerDeclared := true }
          ({ s4 with workloadService := ServiceStatus.running,
                     service := ServiceStatus.running }, none)

/-- `LogProxyConsumer._on_log_proxy_relation_departed`: rebuild the config
via remove_client (the stored agents dict is read first, a KeyError if the
departing unit was never recorded), push it, pop the membership entry, and
then stop the promtail service if the clients list of the pulled current
config is empty, otherwise restart it. -/
def onLogProxyRelationDeparted (s : ConsumerState) (unit : String) :
    ConsumerState × Option HandlerError :=
  match lookupAgent s.agents unit with
  | none => (s, some HandlerError.keyError)
  | some url =>
    match s.config with
    | none => (s, some HandlerError.pullError)
    | some cfg =>
      match removeClient cfg url with
      | none => (s, some HandlerError.typeError)
      | some cfg1 =>
        let s1 := { s with config := some cfg1 }
        match popAgent s1.agents unit with
        | none => (s1, some HandlerError.keyError)
        | some p =>
          let s2 := { s1 with agents := p.2 }
          match s2.config with
          | none => (s2, some HandlerError.pullError)
          | some cur =>
            match ylookup cur "clients" with
            | none => (s2, some HandlerError.keyError)
            | some v =>
              match ylen v with
              | none => (s2, some HandlerError.typeError)
              | some n =>
                if n = 0 then
                  ({ s2 with service := ServiceStatus.stopped }, none)
                else
                  ({ s2 with service := ServiceStatus.running }, none)

/-- `LogProxyConsumer._get_container`: an explicitly configured container
name resolves to that container; with no configured name, resolution
succeeds exactly when the unit has a single container (the code pops the
one key of the containers dict), and raises otherwise. -/
def getContainer (containerName : Option String) (containers : List String) :
    Option String :=
  match containerName with
  | some name => some name
  | none => if containers.length = 1 then containers.getLast? else none

-- Provider side.

/-- `LogProxyProvider._loki_push_api` URL construction. -/
def lokiPushApiUrl (unitIp : String) (port : Nat) : String :=
  "http://" ++ unitIp ++ ":" ++ toString port ++ "/loki/api/v1/push"

/-- The document the provider composes: the loki push API entry updated
first, then the binary URL entry. -/
def composeProviderData (unitIp : String) (port : Nat) : List (String × String) :=
  [("loki_push_api", lokiPushApiUrl unitIp port),
   ("promtail_binary_zip_url", PROMTAIL_BINARY_ZIP_URL)]

/-- `LogProxyProvider._on_log_proxy_relation_changed`: publish the composed
document under the "data" key only when this unit has not published yet;
the argument and result are this unit's "data" value in relation data. -/
def providerOnLogProxyRelationChanged (unitData : Option (List (String × String)))
    (unitIp : String) (port : Nat) : Option (List (String × String)) :=
  match unitData with
  | none => some (composeProviderData unitIp port)
  | some d => some d

-- Concrete fixtures used to instantiate theorems with hypotheses.

/-- A consumer state right after relation-created: config pushed, no
agents recorded, binary not yet installed, nothing running. -/
def sampleState : ConsumerState :=
  { config := some serverConfig
    agents := []
    binaryInstalled := false
    layerDeclared := false
    service := ServiceStatus.stopped
    workloadService := ServiceStatus.stopped }

/-- A peer payload whose archive digest does not match the pinned one. -/
def samplePeerData : PeerData :=
  { lokiPushApi := "http://10.0.0.5:3100/loki/api/v1/push"
    promtailBinaryZipUrl := PROMTAIL_BINARY_ZIP_URL
    archiveSha := "0" }

/-- A consumer state with one recorded agent and its client entry in the
on-sidecar config, promtail running. -/
def departState : ConsumerState :=
  { config := some [("clients", YVal.list [clientEntry "http://10.0.0.5:3100/loki/api/v1/push"])]
    agents := [("loki/0", "http://10.0.0.5:3100/loki/api/v1/push")]
    binaryInstalled := true
    layerDeclared := true
    service := ServiceStatus.running
    workloadService := ServiceStatus.running }

/-- A document with a server section and an empty clients list. -/
def frameDoc : Config := serverConfig ++ [("clients", YVal.list [])]

-- Helper lemmas about the embedded dict operations.

theorem ylookup_setKey_self (cfg : Config) (k : String) (v : YVal) :
    ylookup (setKey cfg k v) k = some v := by
  induction cfg with
  | nil => simp [setKey, ylookup]
  | cons p rest ih =>
    obtain ⟨k1, w⟩ := p
    by_cases h : k1 = k
    · simp [setKey, h, ylookup]
    · simp [setKey, h, ylookup, ih]

theorem ylookup_setKey_ne (cfg : Config) (k k1 : String) (v : YVal) (h : k1 ≠ k) :
    ylookup (setKey cfg k v) k1 = ylookup cfg k1 := by
  have hne : ¬ k = k1 := fun hh => h hh.symm
  induction cfg with
  | nil => simp [setKey, ylookup, hne]
  | cons p rest ih =>
    obtain ⟨k2, w⟩ := p
    by_cases h2 : k2 = k
    · subst h2
      simp [setKey, ylookup, hne]
    · simp [setKey, h2, ylookup, ih]

theorem isClientEntry_clientEntry (url : String) :
    isClientEntry (clientEntry url) url = true := by
  simp [isClientEntry, clientEntry]

theorem filter_clientEntry_nil (l : List YVal) (url : String)
    (h : ∀ c ∈ l, c = clientEntry url) :
    l.filter (fun c => !isClientEntry c url) = [] := by
  induction l with
  | nil => rfl
  | cons x xs ih =>
    have hx : x = clientEntry url := h x (List.mem_cons_self x xs)
    subst hx
    simp only [List.filter, isClientEntry_clientEntry, Bool.not_true]
    exact ih fun c hc => h c (List.mem_cons_of_mem _ hc)

theorem isEmpty_append_singleton (l : List YVal) (x : YVal) :
    (l ++ [x]).isEmpty = false := by
  cases l <;> rfl

-- Claim theorems.

/-- C1: on a relation-changed event where the downloaded archive digest
does not equal the pinned digest constant (and the binary was not already
in the workload, so a download happens), `_obtain_promtail` raises
`PromtailDigestError` and performs neither the unzip nor the upload of the
binary into the sidecar filesystem. -/
theorem obtainPromtail_digest_mismatch_no_install (sha : String)
    (h : sha ≠ BINARY_SHA25SUM) :
    (obtainPromtail false sha).2 = some PromtailError.digestMismatch ∧
    Effect.unzip ∉ (obtainPromtail false sha).1 ∧
    Effect.upload ∉ (obtainPromtail false sha).1 := by
  have hc : checkSha256sum sha = false := by
    simp [checkSha256sum]
    exact fun hh => h hh.symm
  simp [obtainPromtail, hc]

/-- Witness for C1 at a concrete mismatching digest. -/
theorem obtainPromtail_digest_mismatch_no_install_witness :
    ("0" : String) ≠ BINARY_SHA25SUM ∧
    ((obtainPromtail false "0").2 = some PromtailError.digestMismatch ∧
     Effect.unzip ∉ (obtainPromtail false "0").1 ∧
     Effect.upload ∉ (obtainPromtail false "0").1) :=
  ⟨by decide, obtainPromtail_digest_mismatch_no_install "0" (by decide)⟩

/-- C9: when the promtail binary is already present in the workload
container, `_obtain_promtail` returns success immediately with no effects:
no download, no checksum computation, no unzip, no upload. -/
theorem obtainPromtail_fast_path (sha : String) :
    obtainPromtail true sha = ([], none) := rfl

/-- C2: on a relation-changed event with peer data present, if
provisioning raises (binary absent and digest mismatch), the handler
aborts with the whole consumer state unchanged: config file, membership
registry, pebble layer and both service states are exactly as before. -/
theorem onChanged_provision_error_aborts (s : ConsumerState) (unit : String)
    (d : PeerData) (hb : s.binaryInstalled = false)
    (hsha : d.archiveSha ≠ BINARY_SHA25SUM) :
    onLogProxyRelationChanged s unit (some d) = (s, some HandlerError.digestMismatch) := by
  have hc : checkSha256sum d.archiveSha = false := by
    simp [checkSha256sum]
    exact fun hh => hsha hh.symm
  simp [onLogProxyRelationChanged, obtainPromtail, hb, hc]

/-- Witness for C2 at a concrete state and peer payload. -/
theorem onChanged_provision_error_aborts_witness :
    sampleState.binaryInstalled = false ∧
    samplePeerData.archiveSha ≠ BINARY_SHA25SUM ∧
    onLogProxyRelationChanged sampleState "loki/0" (some samplePeerData)
      = (sampleState, some HandlerError.digestMismatch) :=
  ⟨rfl, by decide,
   onChanged_provision_error_aborts sampleState "loki/0" samplePeerData rfl (by decide)⟩

/-- C5: with no explicitly configured container name, `_get_container`
fails exactly when the number of container candidates differs from one,
and with exactly one candidate it returns that container. -/
theorem getContainer_auto_resolution (containers : List String) (c : String) :
    ((getContainer none containers = none) ↔ containers.length ≠ 1) ∧
    getContainer none [c] = some c := by
  constructor
  · match containers with
    | [] => simp [getContainer]
    | [a] => simp [getContainer]
    | a :: b :: t => simp [getContainer]
  · simp [getContainer]

/-- C6: across two consecutive relation-changed events seen by the
provider with no prior "data" key published by this unit, the composed
document (loki push API URL first, then the binary download URL) is
published during the first event only, and the second event leaves the
unit relation data unchanged. -/
theorem provider_publishes_once (ip : String) (port : Nat) :
    providerOnLogProxyRelationChanged none ip port = some (composeProviderData ip port) ∧
    providerOnLogProxyRelationChanged (providerOnLogProxyRelationChanged none ip port) ip port
      = providerOnLogProxyRelationChanged none ip port ∧
    List.lookup "loki_push_api" (composeProviderData ip port) = some (lokiPushApiUrl ip port) ∧
    List.lookup "promtail_binary_zip_url" (composeProviderData ip port)
      = some PROMTAIL_BINARY_ZIP_URL := by
  refine ⟨rfl, rfl, ?_, ?_⟩ <;> simp [composeProviderData, List.lookup]

/-- C7: a relation-departed event for a unit with no entry in the stored
membership registry makes the pop on the stored dict raise a KeyError, and
the handler propagates a lookup error leaving the state unchanged instead
of silently succeeding. -/
theorem departed_without_announce_errors (s : ConsumerState) (unit : String)
    (h : lookupAgent s.agents unit = none) :
    popAgent s.agents unit = none ∧
    onLogProxyRelationDeparted s unit = (s, some HandlerError.keyError) := by
  constructor
  · simp [popAgent, h]
  · simp [onLogProxyRelationDeparted, h]

/-- Witness for C7: departure of a unit never announced. -/
theorem departed_without_announce_errors_witness :
    popAgent sampleState.agents "loki/0" = none ∧
    onLogProxyRelationDeparted sampleState "loki/0"
      = (sampleState, some HandlerError.keyError) :=
  departed_without_announce_errors sampleState "loki/0" rfl

/-- C3: a relation-departed event rewrites the config through
remove_client, forgets the departing unit from the membership registry,
and then stops the promtail service when the clients list read back from
the on-sidecar config is empty, restarting it otherwise. -/
theorem onDeparted_rewrites_forgets_then_stops_or_restarts
    (s : ConsumerState) (unit url : String) (cfg cfg1 : Config) (l : List YVal)
    (h1 : lookupAgent s.agents unit = some url)
    (h2 : s.config = some cfg)
    (h3 : removeClient cfg url = some cfg1)
    (h4 : ylookup cfg1 "clients" = some (YVal.list l)) :
    (onLogProxyRelationDeparted s unit).2 = none ∧
    (onLogProxyRelationDeparted s unit).1.config = some cfg1 ∧
    (onLogProxyRelationDeparted s unit).1.agents = eraseAgent s.agents unit ∧
    (l = [] → (onLogProxyRelationDeparted s unit).1.service = ServiceStatus.stopped) ∧
    (l ≠ [] → (onLogProxyRelationDeparted s unit).1.service = ServiceStatus.running) := by
  cases l with
  | nil => simp [onLogProxyRelationDeparted, h1, h2, h3, h4, popAgent, ylen]
  | cons x xs => simp [onLogProxyRelationDeparted, h1, h2, h3, h4, popAgent, ylen]

/-- Witness for C3: the sole remaining consumer departs, the clients list
becomes empty and the service is stopped. -/
theorem onDeparted_rewrites_forgets_then_stops_or_restarts_witness :
    (onLogProxyRelationDeparted departState "loki/0").2 = none ∧
    (onLogProxyRelationDeparted departState "loki/0").1.config
      = some [("clients", YVal.list [])] ∧
    (onLogProxyRelationDeparted departState "loki/0").1.agents
      = eraseAgent departState.agents "loki/0" ∧
    (([] : List YVal) = [] →
      (onLogProxyRelationDeparted departState "loki/0").1.service = ServiceStatus.stopped) ∧
    (([] : List YVal) ≠ [] →
      (onLogProxyRelationDeparted departState "loki/0").1.service = ServiceStatus.running) :=
  onDeparted_rewrites_forgets_then_stops_or_restarts departState "loki/0"
    "http://10.0.0.5:3100/loki/api/v1/push"
    [("clients", YVal.list [clientEntry "http://10.0.0.5:3100/loki/api/v1/push"])]
    [("clients", YVal.list [])] [] rfl rfl rfl rfl

/-- C4 counterexample: the round trip does not always leave an empty
clients list; a document that already holds a different client keeps it. -/
theorem remove_add_client_counterexample :
    ¬ ∀ (doc : Config) (U : String) (d1 d2 : Config),
        addClient doc U = some d1 → removeClient d1 U = some d2 →
        ylookup d2 "clients" = some (YVal.list []) := by
  intro h
  have h2 := h [("clients", YVal.list [clientEntry "http://other"])] "http://u"
      [("clients", YVal.list [clientEntry "http://other", clientEntry "http://u"])]
      [("clients", YVal.list [clientEntry "http://other"])] rfl rfl
  simp [ylookup, clientEntry] at h2

/-- C4 amended: when the document has no clients key, or all its client
entries already equal the entry for U, remove_client after add_client
yields an empty clients list. -/
theorem remove_add_client_empty_of_only_that_url (doc : Config) (U : String)
    (h : ylookup doc "clients" = none ∨
         ∃ l, ylookup doc "clients" = some (YVal.list l) ∧ ∀ c ∈ l, c = clientEntry U) :
    ∃ d1 d2, addClient doc U = some d1 ∧ removeClient d1 U = some d2 ∧
      ylookup d2 "clients" = some (YVal.list []) := by
  rcases h with h | ⟨l, hl, hall⟩
  · have ha : addClient doc U = some (setKey doc "clients" (YVal.list [clientEntry U])) := by
      simp [addClient, h]
    have hlk := ylookup_setKey_self doc "clients" (YVal.list [clientEntry U])
    have hf : List.filter (fun c => !isClientEntry c U) [clientEntry U] = [] :=
      filter_clientEntry_nil [clientEntry U] U (fun c hc => List.mem_singleton.mp hc)
    have hr : removeClient (setKey doc "clients" (YVal.list [clientEntry U])) U
        = some (setKey (setKey doc "clients" (YVal.list [clientEntry U])) "clients"
            (YVal.list [])) := by
      simp [removeClient, hlk, yfalsy, hf]
    exact ⟨_, _, ha, hr, ylookup_setKey_self _ _ _⟩
  · have ha : addClient doc U
        = some (setKey doc "clients" (YVal.list (l ++ [clientEntry U]))) := by
      simp [addClient, hl]
    have hlk := ylookup_setKey_self doc "clients" (YVal.list (l ++ [clientEntry U]))
    have hne : yfalsy (YVal.list (l ++ [clientEntry U])) = false := by
      simp [yfalsy, isEmpty_append_singleton]
    have hf : List.filter (fun c => !isClientEntry c U) (l ++ [clientEntry U]) = [] := by
      refine filter_clientEntry_nil _ U fun c hc => ?_
      rcases List.mem_append.mp hc with hcl | hcr
      · exact hall c hcl
      · exact List.mem_singleton.mp hcr
    have hr : removeClient (setKey doc "clients" (YVal.list (l ++ [clientEntry U]))) U
        = some (setKey (setKey doc "clients" (YVal.list (l ++ [clientEntry U]))) "clients"
            (YVal.list [])) := by
      simp [removeClient, hlk, hne, hf]
    exact ⟨_, _, ha, hr, ylookup_setKey_self _ _ _⟩

/-- Witness for the amended C4 at a document with no clients key. -/
theorem remove_add_client_empty_of_only_that_url_witness :
    ∃ d1 d2, addClient [] "http://u" = some d1 ∧ removeClient d1 "http://u" = some d2 ∧
      ylookup d2 "clients" = some (YVal.list []) :=
  remove_add_client_empty_of_only_that_url [] "http://u" (Or.inl rfl)

/-- C8: adding the same URL twice appends two equal client entries at the
end of the clients list; add_client never deduplicates. -/
theorem addClient_twice_two_equal_entries (doc : Config) (U : String) (d2 : Config)
    (h : ((addClient doc U).bind fun d => addClient d U) = some d2) :
    ∃ l, ylookup d2 "clients" = some (YVal.list (l ++ [clientEntry U, clientEntry U])) := by
  cases hc : ylookup doc "clients" with
  | none =>
    have ha : addClient doc U = some (setKey doc "clients" (YVal.list [clientEntry U])) := by
      simp [addClient, hc]
    rw [ha] at h
    have hlk := ylookup_setKey_self doc "clients" (YVal.list [clientEntry U])
    simp [Option.bind, addClient, hlk] at h
    refine ⟨[], ?_⟩
    rw [← h, ylookup_setKey_self]
    simp
  | some v =>
    cases v with
    | list l =>
      have ha : addClient doc U
          = some (setKey doc "clients" (YVal.list (l ++ [clientEntry U]))) := by
        simp [addClient, hc]
      rw [ha] at h
      have hlk := ylookup_setKey_self doc "clients" (YVal.list (l ++ [clientEntry U]))
      simp [Option.bind, addClient, hlk] at h
      refine ⟨l, ?_⟩
      rw [← h]
      simp [ylookup_setKey_self]
    | str s => simp [Option.bind, addClient, hc] at h
    | num n => simp [Option.bind, addClient, hc] at h
    | bool b => simp [Option.bind, addClient, hc] at h
    | dict d => simp [Option.bind, addClient, hc] at h

/-- Witness for C8: adding the same URL twice to an empty document. -/
theorem addClient_twice_two_equal_entries_witness :
    ∃ l, ylookup [("clients", YVal.list [clientEntry "http://u", clientEntry "http://u"])]
        "clients"
      = some (YVal.list (l ++ [clientEntry "http://u", clientEntry "http://u"])) :=
  addClient_twice_two_equal_entries [] "http://u"
    [("clients", YVal.list [clientEntry "http://u", clientEntry "http://u"])] rfl

/-- C10: both client mutations leave every top-level key other than
"clients" bound to its previous value (stated through a default so the
equation also covers the inputs on which the mutation raises). -/
theorem clientMutations_preserve_other_keys (cfg : Config) (url k : String)
    (hk : k ≠ "clients") :
    (((addClient cfg url).map fun c => ylookup c k).getD (ylookup cfg k)
        = ylookup cfg k) ∧
    (((removeClient cfg url).map fun c => ylookup c k).getD (ylookup cfg k)
        = ylookup cfg k) := by
  have hrw : ∀ v, ylookup (setKey cfg "clients" v) k = ylookup cfg k :=
    fun v => ylookup_setKey_ne cfg "clients" k v hk
  constructor
  · cases hc : ylookup cfg "clients" with
    | none => simp [addClient, hc, hrw]
    | some v => cases v <;> simp [addClient, hc, hrw]
  · cases hc : ylookup cfg "clients" with
    | none => simp [removeClient, hc]
    | some v =>
      by_cases hf : yfalsy v = true
      · simp [removeClient, hc, hf]
      · cases v <;> simp [removeClient, hc, hf, hrw]

/-- Witness for C10 on a document with a server section and a clients
list, at the key "server". -/
theorem clientMutations_preserve_other_keys_witness :
    (((addClient frameDoc "http://u").map fun c => ylookup c "server").getD
        (ylookup frameDoc "server") = ylookup frameDoc "server") ∧
    (((removeClient frameDoc "http://u").map fun c => ylookup c "server").getD
        (ylookup frameDoc "server") = ylookup frameDoc "server") :=
  clientMutations_preserve_other_keys frameDoc "http://u" "server" (by decide)
